import Mathlib

/-!
Shallow embedding of the RDM response classifier and payload decoders of
src/common/rdm/RDMAPI.cpp, together with the argument-checking helpers of
the request-sending API methods. Bytes are modelled as `Nat` (a well-formed
payload has every byte < 256); machine-integer truncation is explicit
(`% 65536` for `uint16_t`).
-/

namespace OlaRdm

/-- Response type codes of `ResponseStatus` (the `rdm_response_types` values
used in src/common/rdm/RDMAPI.cpp). -/
inductive RType where
  | VALID_RESPONSE
  | BROADCAST_REQUEST
  | REQUEST_NACKED
  | MALFORMED_RESPONSE
  | TRANSPORT_ERROR
deriving DecidableEq, Repr

/-- The raw transport outcome handed to `ResponseStatus`'s constructor:
`RDMAPIImplResponseStatus` carries whether the request was broadcast, the
raw response-type code, and the transport's error string (empty on
success). -/
structure RDMAPIImplResponseStatus where
  was_broadcast : Bool
  response_type : Nat
  error : String
deriving DecidableEq, Repr

/-- Modelled from the spec: the response-type code meaning "refused with
reason" (`ola::rdm::NACK_REASON`, declared in RDMEnums.h which is not in
src). Only its identity matters: the classifier compares the raw code to it
for equality. -/
def NACK_REASON : Nat := 2

/-- The derived response status: response type, NACK reason code
(`uint16_t`) and error description, as in `ResponseStatus`. -/
structure ResponseStatus where
  m_response_type : RType
  m_nack_reason : Nat
  m_error : String
deriving DecidableEq, Repr

/-- Embedding of `ResponseStatus::ResponseStatus(status, data)`
(src/common/rdm/RDMAPI.cpp lines 47-69): initial state is
`VALID_RESPONSE` / nack reason 0 / error copied from the transport; an I/O
failure (non-empty error) gives `TRANSPORT_ERROR`; else a broadcast request
gives `BROADCAST_REQUEST`; else a `NACK_REASON` response-type code parses a
2-byte big-endian reason from the payload, giving `MALFORMED_RESPONSE` with
"NACK_REASON data too small" when fewer than 2 bytes are present. -/
def ResponseStatus.make (status : RDMAPIImplResponseStatus)
    (data : List Nat) : ResponseStatus :=
  if status.error ≠ "" then
    { m_response_type := .TRANSPORT_ERROR, m_nack_reason := 0,
      m_error := status.error }
  else if status.was_broadcast then
    { m_response_type := .BROADCAST_REQUEST, m_nack_reason := 0,
      m_error := status.error }
  else if status.response_type = NACK_REASON then
    if data.length < 2 then
      { m_response_type := .MALFORMED_RESPONSE, m_nack_reason := 0,
        m_error := "NACK_REASON data too small" }
    else
      { m_response_type := .REQUEST_NACKED,
        m_nack_reason := (data.headD 0 * 256 + data.tail.headD 0) % 65536,
        m_error := status.error }
  else
    { m_response_type := .VALID_RESPONSE, m_nack_reason := 0,
      m_error := status.error }

/-- Modelled from the spec: `ResponseStatus::MalformedResponse(description)`
(declared in the RDMAPI.h header, which is not in src) marks the status
`Malformed(description)`: the response type becomes MALFORMED_RESPONSE and
the error string becomes the description. -/
def MalformedResponse (rs : ResponseStatus) (description : String) :
    ResponseStatus :=
  { rs with m_response_type := .MALFORMED_RESPONSE, m_error := description }

/-- Embedding of `RDMAPI::SetIncorrectPDL` (src/common/rdm/RDMAPI.cpp):
marks a ResponseStatus as malformed due to a length mismatch. -/
def SetIncorrectPDL (rs : ResponseStatus) (actual expected : Nat) :
    ResponseStatus :=
  MalformedResponse rs ("PDL mismatch, " ++ toString actual ++ " != " ++
    toString expected ++ " (expected)")

/-- The `MAX_DATA_SIZE` constant of `RDMAPI::_HandleLabelResponse`. -/
def MAX_DATA_SIZE : Nat := 32

/-- Embedding of `RDMAPI::_HandleLabelResponse`: builds the ResponseStatus
from the transport outcome; a VALID_RESPONSE whose payload exceeds 32 bytes
is marked malformed; the callback is run with the status and the raw data.
The result models the pair of arguments passed to `callback->Run`. -/
def _HandleLabelResponse (status : RDMAPIImplResponseStatus)
    (data : List Nat) : ResponseStatus × List Nat :=
  let response_status := ResponseStatus.make status data
  let response_status :=
    if response_status.m_response_type = .VALID_RESPONSE ∧
        data.length > MAX_DATA_SIZE then
      MalformedResponse response_status
        ("PDL needs to be <= " ++ toString MAX_DATA_SIZE ++ ", was " ++
          toString data.length)
    else response_status
  (response_status, data)

/-- Embedding of `RDMAPI::_HandleEmptyResponse`: builds the ResponseStatus;
a VALID_RESPONSE with a non-empty payload gets `SetIncorrectPDL` with
expected size 0. The result models the argument passed to
`callback->Run`. -/
def _HandleEmptyResponse (status : RDMAPIImplResponseStatus)
    (data : List Nat) : ResponseStatus :=
  let response_status := ResponseStatus.make status data
  if response_status.m_response_type = .VALID_RESPONSE ∧
      data.length ≠ 0 then
    SetIncorrectPDL response_status data.length 0
  else response_status

/-- Modelled from the spec: a UID is a 16-bit manufacturer identifier plus
a 32-bit device identifier (UID.h is not in src). -/
structure UID where
  manufacturer : Nat
  device : Nat
deriving DecidableEq, Repr

/-- Modelled from the spec: manufacturer = 0xFFFF with device = 0xFFFFFFFF
is the "all devices, all manufacturers" broadcast address
(`UID::IsBroadcast`, UID.h not in src). -/
def UID.IsBroadcast (uid : UID) : Bool :=
  uid.manufacturer = 65535 && uid.device = 4294967295

/-- Embedding of `RDMAPI::CheckNotBroadcast` (src/common/rdm/RDMAPI.cpp
lines 2142-2149). The string component models the contents of the
caller-provided error string after the call (threaded through unchanged
when the helper does not write it). The C++ returns false for a broadcast
UID (writing the error) and true otherwise. -/
def CheckNotBroadcast (uid : UID) (error : String) : Bool × String :=
  if uid.IsBroadcast then (false, "Cannot send to broadcast address")
  else (true, error)

/-- Embedding of `RDMAPI::CheckValidSubDevice` (src/common/rdm/RDMAPI.cpp
lines 2153-2168): returns true for sub-device ≤ 0x0200, true for 0xffff
when broadcast is allowed, and otherwise writes an error naming the 0x0200
limit and returns false. -/
def CheckValidSubDevice (sub_device : Nat) (broadcast_allowed : Bool)
    (error : String) : Bool × String :=
  if sub_device ≤ 512 then (true, error)
  else if broadcast_allowed && sub_device = 65535 then (true, error)
  else (false, "Sub device must be <= 0x0200" ++
    (if broadcast_allowed then " or 0xffff" else ""))

/-- Embedding of `RDMAPI::CheckReturnStatus` (src/common/rdm/RDMAPI.cpp):
if the transport refused the frame, writes "Unable to send RDM command";
returns the transport's status. -/
def CheckReturnStatus (status : Bool) (error : String) : Bool × String :=
  if !status then (false, "Unable to send RDM command") else (status, error)

/-- The observable outcome of one API send method: the boolean return
value, whether the frame was submitted to the transport
(`m_impl->RDMGet` / `RDMSet` reached), and the final contents of the
caller's error string. -/
structure ApiCall where
  returned : Bool
  submitted : Bool
  error : String
deriving DecidableEq, Repr

/-- Embedding of `RDMAPI::GetDeviceInfo` (src/common/rdm/RDMAPI.cpp lines
454-478), mirrored statement by statement: `if (CheckNotBroadcast(uid,
error)) return false;` then `if (CheckValidSubDevice(sub_device, false,
error)) return false;` then `return CheckReturnStatus(m_impl->RDMGet(...),
error);`. `impl_accepts` models the transport's acceptance of the frame. -/
def GetDeviceInfo (impl_accepts : Bool) (uid : UID) (sub_device : Nat) :
    ApiCall :=
  let r1 := CheckNotBroadcast uid ""
  if r1.1 then { returned := false, submitted := false, error := r1.2 }
  else
    let r2 := CheckValidSubDevice sub_device false r1.2
    if r2.1 then { returned := false, submitted := false, error := r2.2 }
    else
      let r3 := CheckReturnStatus impl_accepts r2.2
      { returned := r3.1, submitted := true, error := r3.2 }

/-- Embedding of `RDMAPI::SetDeviceLabel` (src/common/rdm/RDMAPI.cpp lines
626-649): `if (CheckValidSubDevice(sub_device, true, error)) return
false;` then `return CheckReturnStatus(m_impl->RDMSet(...), error);`. The
label payload does not influence the control flow. -/
def SetDeviceLabel (impl_accepts : Bool) (uid : UID) (sub_device : Nat)
    (label : List Nat) : ApiCall :=
  let r1 := CheckValidSubDevice sub_device true ""
  if r1.1 then { returned := false, submitted := false, error := r1.2 }
  else
    let r2 := CheckReturnStatus impl_accepts r1.2
    { returned := r2.1, submitted := true, error := r2.2 }

/-- A fixed transport outcome that classifies as VALID_RESPONSE: no error,
not broadcast, response-type code 0 (not NACK_REASON). -/
def stOK : RDMAPIImplResponseStatus :=
  { was_broadcast := false, response_type := 0, error := "" }

/-- Embedding of the decode loop of `RDMAPI::_HandleGetSupportedParameters`
(src/common/rdm/RDMAPI.cpp lines 1591-1613). The C++ casts the payload to
`const uint16_t *start` and iterates `for (ptr = start; ptr < start +
data_size; ptr++)`: the bound is counted in uint16_t units, so the loop
runs `data_size` iterations and reads bytes 2*i and 2*i+1 of process
memory at iteration i. `mem` gives the byte of process memory at each
offset from the start of the payload (the payload itself being the first
`n` bytes). `NetworkToHost(*ptr)` composes, on either host endianness, to
the big-endian value of the two bytes read. -/
def supportedParamsLoop (mem : Nat → Nat) (n : Nat) : List Nat :=
  (List.range n).map (fun i => (mem (2 * i) * 256 + mem (2 * i + 1)) % 65536)

/-- Embedding of `RDMAPI::_HandleGetSupportedParameters`: on a
VALID_RESPONSE, an even payload length runs the decode loop and an odd one
is marked malformed. The payload is the first `n` bytes of `mem`. -/
def _HandleGetSupportedParameters (status : RDMAPIImplResponseStatus)
    (mem : Nat → Nat) (n : Nat) : ResponseStatus × List Nat :=
  let data := (List.range n).map mem
  let response_status := ResponseStatus.make status data
  if response_status.m_response_type = .VALID_RESPONSE then
    if n % 2 = 0 then (response_status, supportedParamsLoop mem n)
    else (MalformedResponse response_status
      ("PDL size not a multiple of 2 : " ++ toString n), [])
  else (response_status, [])

/-- Process memory holding zero everywhere. -/
def memZero : Nat → Nat := fun _ => 0

/-- Process memory agreeing with `memZero` on the first two bytes (the
payload) but differing beyond it. -/
def memPastEnd : Nat → Nat := fun i => if i < 2 then 0 else 7

/-- One iteration of the `while (ptr < end)` loops of
`RDMAPI::_HandleGetSlotInfo` (src/common/rdm/RDMAPI.cpp lines 1948-1977)
and `RDMAPI::_HandleGetSlotDefaultValues` (lines 2025-2053): the body
memcpys one record at `ptr` and push_backs it, but never advances `ptr`.
The state tracks the pointer offset from the start of the payload and the
number of records pushed so far; `dataLen` is the payload length (`end`). -/
def slotLoopStep (dataLen : Nat) (s : Nat × Nat) : Nat × Nat :=
  if s.1 < dataLen then (s.1, s.2 + 1) else s

/-- The field computation of `RDMAPI::_HandleGetStatusMessage`
(src/common/rdm/RDMAPI.cpp lines 1505-1550):
`message.sub_device_hi << 8 + message.sub_device_lo` parses, by C++
operator precedence, as `hi << (8 + lo)`; the result is truncated to the
16-bit constructor parameter of StatusMessage. -/
def statusMessageField (hi lo : Nat) : Nat := (hi <<< (8 + lo)) % 65536

/-- Modelled from the spec: the StatusMessage value type (declared in a
header not in src); its constructor takes sub-device, status type, message
id, value 1 and value 2, each a 16-bit (status type: 8-bit) integer. -/
structure StatusMessage where
  sub_device : Nat
  status_type : Nat
  message_id : Nat
  value1 : Nat
  value2 : Nat
deriving DecidableEq, Repr

/-- The decode loop of `RDMAPI::_HandleGetStatusMessage`: one StatusMessage
per consecutive 9-byte record, each 16-bit field computed from its hi and
lo bytes by `statusMessageField`. -/
def statusMessageLoop : List Nat → List StatusMessage
  | b0 :: b1 :: b2 :: b3 :: b4 :: b5 :: b6 :: b7 :: b8 :: rest =>
      { sub_device := statusMessageField b0 b1,
        status_type := b2 % 256,
        message_id := statusMessageField b3 b4,
        value1 := statusMessageField b5 b6,
        value2 := statusMessageField b7 b8 } :: statusMessageLoop rest
  | _ => []

/-- Embedding of `RDMAPI::_HandleGetStatusMessage`: on a VALID_RESPONSE, a
payload length that is a multiple of the 9-byte record size runs the decode
loop; any other length is marked malformed. -/
def _HandleGetStatusMessage (status : RDMAPIImplResponseStatus)
    (data : List Nat) : ResponseStatus × List StatusMessage :=
  let response_status := ResponseStatus.make status data
  if response_status.m_response_type = .VALID_RESPONSE then
    if data.length % 9 = 0 then (response_status, statusMessageLoop data)
    else (MalformedResponse response_status
      ("PDL size not a multiple of 9 : " ++ toString data.length), [])
  else (response_status, [])

/-- Embedding of `RDMAPI::_HandleGetProxiedDeviceCount`
(src/common/rdm/RDMAPI.cpp lines 1405-1432): with at least 3 payload bytes,
the first two are memcpyd into a `uint16_t` and used WITHOUT a byte-order
conversion, so the value is the host-order interpretation of the two bytes
(`littleEndian` says which the host is); the third byte is the
list-change flag. Shorter payloads get `SetIncorrectPDL`. -/
def _HandleGetProxiedDeviceCount (littleEndian : Bool)
    (status : RDMAPIImplResponseStatus) (data : List Nat) :
    ResponseStatus × Nat × Bool :=
  let response_status := ResponseStatus.make status data
  if response_status.m_response_type = .VALID_RESPONSE then
    if data.length ≥ 3 then
      let b0 := data.headD 0
      let b1 := data.tail.headD 0
      let device_count :=
        if littleEndian then (b0 + 256 * b1) % 65536
        else (256 * b0 + b1) % 65536
      (response_status, device_count, data.tail.tail.headD 0 ≠ 0)
    else (SetIncorrectPDL response_status data.length 3, 0, false)
  else (response_status, 0, false)

/-- Modelled from the spec: `UID::UID_SIZE`, the 6-byte wire size of a UID
(2-byte manufacturer + 4-byte device id; UID.h not in src). -/
def UID_SIZE : Nat := 6

/-- Modelled from the spec: the `UID(ptr)` byte constructor (UID.h not in
src) reads a 6-byte big-endian UID: 2 manufacturer bytes then 4 device-id
bytes, network byte order. -/
def UID.fromBytes (b : List Nat) : UID :=
  { manufacturer := b.headD 0 * 256 + (b.drop 1).headD 0,
    device := (b.drop 2).headD 0 * 16777216 + (b.drop 3).headD 0 * 65536 +
      (b.drop 4).headD 0 * 256 + (b.drop 5).headD 0 }

/-- The decode loop of `RDMAPI::_HandleGetProxiedDevices`
(src/common/rdm/RDMAPI.cpp lines 1438-1463): one UID per consecutive
6-byte slice, the byte pointer advancing by `UID::UID_SIZE` each iteration
until it reaches the end of the payload. -/
def uidListLoop (data : List Nat) : List UID :=
  if h : data = [] then []
  else UID.fromBytes (data.take 6) :: uidListLoop (data.drop 6)
termination_by data.length
decreasing_by
  simp only [List.length_drop]
  exact Nat.sub_lt (List.length_pos.mpr h) (by norm_num)

/-- Embedding of `RDMAPI::_HandleGetProxiedDevices`: on a VALID_RESPONSE,
a payload length that is a multiple of `UID::UID_SIZE` = 6 runs the UID
decode loop; any other length is marked malformed naming the record size
and the actual length. -/
def _HandleGetProxiedDevices (status : RDMAPIImplResponseStatus)
    (data : List Nat) : ResponseStatus × List UID :=
  let response_status := ResponseStatus.make status data
  if response_status.m_response_type = .VALID_RESPONSE then
    if data.length % UID_SIZE = 0 then (response_status, uidListLoop data)
    else (MalformedResponse response_status
      ("PDL size not a multiple of " ++ toString UID_SIZE ++ " : " ++
        toString data.length), [])
  else (response_status, [])

/-- The host's reading of a `uint16_t` memcpyd from two payload bytes: lo
byte first on a little-endian host, hi byte first on a big-endian one. -/
def hostUInt16 (littleEndian : Bool) (b0 b1 : Nat) : Nat :=
  if littleEndian then (b0 + 256 * b1) % 65536 else (256 * b0 + b1) % 65536

/-- The decode loop of `RDMAPI::_HandleGetProductDetailIdList`
(src/common/rdm/RDMAPI.cpp lines 1716-1747): iterates a uint16_t pointer
while `ptr < start + (data_size / sizeof(*ptr))`, i.e. data_size / 2
iterations, pushing each raw host-order `*ptr` (no byte-order conversion is
applied). Iteration i reads payload bytes 2*i and 2*i+1. -/
def u16ListLoop (littleEndian : Bool) (data : List Nat) : List Nat :=
  (List.range (data.length / 2)).map
    (fun i => hostUInt16 littleEndian ((data.drop (2 * i)).headD 0)
      ((data.drop (2 * i + 1)).headD 0))

/-- Embedding of `RDMAPI::_HandleGetProductDetailIdList`: on a
VALID_RESPONSE, a payload longer than `MAX_DETAIL_IDS * sizeof(uint16_t)`
= 12 bytes is marked malformed citing the 12-byte limit; an odd length is
marked malformed; otherwise the uint16 list is decoded. -/
def _HandleGetProductDetailIdList (littleEndian : Bool)
    (status : RDMAPIImplResponseStatus) (data : List Nat) :
    ResponseStatus × List Nat :=
  let response_status := ResponseStatus.make status data
  if response_status.m_response_type = .VALID_RESPONSE then
    if data.length > 12 then
      (MalformedResponse response_status
        ("PDL needs to be <= " ++ toString 12 ++ ", was " ++
          toString data.length), [])
    else if data.length % 2 ≠ 0 then
      (MalformedResponse response_status
        ("PDL needs to be a multiple of 2, was " ++ toString data.length), [])
    else (response_status, u16ListLoop littleEndian data)
  else (response_status, [])

/-- C1: the response status classifier evaluates its rules in order: a
non-empty transport error string gives TransportError; else a broadcast
request gives Broadcast; else a NACK_REASON response-type code gives Nacked
with the big-endian 16-bit reason from the first two payload bytes when at
least 2 bytes are present, and Malformed when the payload is shorter than 2
bytes; otherwise the status is Valid. -/
theorem C1_response_status_classifier (st : RDMAPIImplResponseStatus)
    (data : List Nat) :
    (st.error ≠ "" →
      (ResponseStatus.make st data).m_response_type = .TRANSPORT_ERROR)
    ∧ (st.error = "" → st.was_broadcast = true →
      (ResponseStatus.make st data).m_response_type = .BROADCAST_REQUEST)
    ∧ (st.error = "" → st.was_broadcast = false →
      st.response_type = NACK_REASON → data.length < 2 →
      (ResponseStatus.make st data).m_response_type = .MALFORMED_RESPONSE)
    ∧ (st.error = "" → st.was_broadcast = false →
      st.response_type = NACK_REASON →
      ∀ b0 b1 rest, data = b0 :: b1 :: rest → b0 < 256 → b1 < 256 →
        (ResponseStatus.make st data).m_response_type = .REQUEST_NACKED
        ∧ (ResponseStatus.make st data).m_nack_reason = b0 * 256 + b1)
    ∧ (st.error = "" → st.was_broadcast = false →
      st.response_type ≠ NACK_REASON →
      (ResponseStatus.make st data).m_response_type = .VALID_RESPONSE) := by
  refine ⟨?_, ?_, ?_, ?_, ?_⟩
  · intro h
    simp [ResponseStatus.make, h]
  · intro h hb
    simp [ResponseStatus.make, h, hb]
  · intro h hb hn hlen
    simp [ResponseStatus.make, h, hb, hn, hlen]
  · intro h hb hn b0 b1 rest hdata h0 h1
    subst hdata
    have hlen : ¬(rest.length + 1 + 1 < 2) := by omega
    have hmod : (b0 * 256 + b1) % 65536 = b0 * 256 + b1 :=
      Nat.mod_eq_of_lt (by omega)
    refine ⟨?_, ?_⟩ <;>
      simp [ResponseStatus.make, h, hb, hn, hlen, hmod]
  · intro h hb hn
    simp [ResponseStatus.make, h, hb, hn]

/-- C1 witness: at a concrete non-broadcast NACK response with payload
bytes [1, 2], the classifier yields REQUEST_NACKED with reason 258. -/
theorem C1_response_status_classifier_witness :
    (ResponseStatus.make ⟨false, 2, ""⟩ [1, 2]).m_response_type =
      .REQUEST_NACKED
    ∧ (ResponseStatus.make ⟨false, 2, ""⟩ [1, 2]).m_nack_reason = 1 * 256 + 2 :=
  (C1_response_status_classifier ⟨false, 2, ""⟩ [1, 2]).2.2.2.1
    rfl rfl rfl 1 2 [] rfl (by decide) (by decide)

/-- C7: for a label/string response classified Valid, a payload longer than
32 bytes is delivered as Malformed with a description citing the 32-byte
limit and the actual size; a payload of at most 32 bytes keeps the status
Valid and the data is delivered unchanged. -/
theorem C7_label_response_length_check (st : RDMAPIImplResponseStatus)
    (data : List Nat)
    (hv : (ResponseStatus.make st data).m_response_type = .VALID_RESPONSE) :
    (data.length > 32 →
      (_HandleLabelResponse st data).1.m_response_type = .MALFORMED_RESPONSE
      ∧ (_HandleLabelResponse st data).1.m_error =
          "PDL needs to be <= " ++ toString 32 ++ ", was " ++
            toString data.length)
    ∧ (data.length ≤ 32 →
      (_HandleLabelResponse st data).1 = ResponseStatus.make st data)
    ∧ (_HandleLabelResponse st data).2 = data := by
  refine ⟨?_, ?_, ?_⟩
  · intro hlong
    simp [_HandleLabelResponse, MAX_DATA_SIZE, hv, hlong, MalformedResponse]
  · intro hshort
    have : ¬(data.length > MAX_DATA_SIZE) := by
      simp [MAX_DATA_SIZE]; omega
    simp [_HandleLabelResponse, this]
  · simp [_HandleLabelResponse]

/-- C7 witness: a 40-byte payload on an otherwise valid response is
delivered Malformed, with the description citing limit 32 and size 40. -/
theorem C7_label_response_length_check_witness :
    (_HandleLabelResponse ⟨false, 0, ""⟩ (List.replicate 40 7)).1.m_response_type
      = .MALFORMED_RESPONSE
    ∧ (_HandleLabelResponse ⟨false, 0, ""⟩
        (List.replicate 40 7)).1.m_error = "PDL needs to be <= 32, was 40" :=
  (C7_label_response_length_check ⟨false, 0, ""⟩ (List.replicate 40 7)
    (by decide)).1 (by decide)

/-- C10: for a set-style command whose response carries no data, a Valid
response with a non-empty payload is reclassified Malformed with a PDL
mismatch description giving the actual size and expected size 0; a Valid
response with empty payload, and any non-Valid status, is delivered
unchanged. -/
theorem C10_empty_response_pdl_check (st : RDMAPIImplResponseStatus)
    (data : List Nat) :
    ((ResponseStatus.make st data).m_response_type = .VALID_RESPONSE →
      data.length ≠ 0 →
      (_HandleEmptyResponse st data).m_response_type = .MALFORMED_RESPONSE
      ∧ _HandleEmptyResponse st data =
          SetIncorrectPDL (ResponseStatus.make st data) data.length 0)
    ∧ ((ResponseStatus.make st data).m_response_type = .VALID_RESPONSE →
      data.length = 0 →
      _HandleEmptyResponse st data = ResponseStatus.make st data)
    ∧ ((ResponseStatus.make st data).m_response_type ≠ .VALID_RESPONSE →
      _HandleEmptyResponse st data = ResponseStatus.make st data) := by
  refine ⟨?_, ?_, ?_⟩
  · intro hv hne
    simp [_HandleEmptyResponse, hv, hne, SetIncorrectPDL, MalformedResponse]
  · intro hv hz
    simp [_HandleEmptyResponse, hz]
  · intro hnv
    simp [_HandleEmptyResponse, hnv]

/-- C10 witness: a valid response with a 3-byte payload to an empty-response
command is delivered Malformed with description "PDL mismatch, 3 != 0
(expected)"; with an empty payload it is delivered unchanged. -/
theorem C10_empty_response_pdl_check_witness :
    ((_HandleEmptyResponse ⟨false, 0, ""⟩ [1, 2, 3]).m_response_type =
        .MALFORMED_RESPONSE
      ∧ _HandleEmptyResponse ⟨false, 0, ""⟩ [1, 2, 3] =
        SetIncorrectPDL (ResponseStatus.make ⟨false, 0, ""⟩ [1, 2, 3]) 3 0)
    ∧ _HandleEmptyResponse ⟨false, 0, ""⟩ [] =
        ResponseStatus.make ⟨false, 0, ""⟩ [] :=
  ⟨(C10_empty_response_pdl_check ⟨false, 0, ""⟩ [1, 2, 3]).1
      (by decide) (by decide),
    (C10_empty_response_pdl_check ⟨false, 0, ""⟩ []).2.1
      (by decide) (by decide)⟩

/-- C2 is violated by the code: the boolean conventions of
CheckNotBroadcast / CheckValidSubDevice are inverted relative to their call
sites, so GetDeviceInfo with a non-broadcast UID and sub-device 0 on an
accepting transport returns false without submitting anything and without
an error message, while a request to the broadcast UID with an out-of-range
sub-device IS submitted and returns true. -/
theorem C2_get_device_info_inverted_checks :
    GetDeviceInfo true ⟨1, 2⟩ 0 =
      { returned := false, submitted := false, error := "" }
    ∧ GetDeviceInfo true ⟨65535, 4294967295⟩ 768 =
      { returned := true, submitted := true,
        error := "Sub device must be <= 0x0200" } := by
  constructor <;> rfl

/-- C3 is violated by the code: SetDeviceLabel with the valid sub-device 0
returns false without submitting and with no error message, while the
out-of-range sub-device 0x0300 is submitted to the transport (returning
true) even though the error string naming the 0x0200 limit was written. -/
theorem C3_sub_device_check_inverted :
    SetDeviceLabel true ⟨1, 2⟩ 0 [] =
      { returned := false, submitted := false, error := "" }
    ∧ SetDeviceLabel true ⟨1, 2⟩ 768 [] =
      { returned := true, submitted := true,
        error := "Sub device must be <= 0x0200 or 0xffff" } := by
  constructor <;> rfl

/-- C4 is violated by the code: with a 2-byte payload the supported-
parameters decode loop yields 2 parameter ids instead of 1, and its result
depends on process memory beyond the payload (memZero and memPastEnd agree
on the 2 payload bytes yet decode differently), because the loop bound
`start + data_size` is counted in uint16_t units. -/
theorem C4_supported_params_reads_past_payload :
    ((List.range 2).map memZero = (List.range 2).map memPastEnd)
    ∧ (_HandleGetSupportedParameters stOK memZero 2).2.length = 2
    ∧ (_HandleGetSupportedParameters stOK memZero 2).2 ≠
        (_HandleGetSupportedParameters stOK memPastEnd 2).2 := by
  refine ⟨rfl, rfl, ?_⟩
  decide

/-- C5 is violated by the code: the slot-record decode loop never advances
its pointer, so on a 5-byte payload (one record) the loop guard still holds
after every number of iterations — the loop never exits — while a record is
pushed at every iteration. -/
theorem C5_slot_decode_loop_never_exits :
    ∀ k : Nat, ((slotLoopStep 5)^[k] (0, 0)).1 = 0
      ∧ ((slotLoopStep 5)^[k] (0, 0)).2 = k := by
  intro k
  induction k with
  | zero => simp
  | succ n ih =>
      rw [Function.iterate_succ_apply']
      simp only [slotLoopStep, ih.1, ih.2]
      simp

/-- C6 is violated by the code: the status-message record with bytes
sub_device_hi = 1, sub_device_lo = 1 decodes to sub-device 512 (the C++
`hi << 8 + lo` parses as `hi << (8 + lo)`), not 1 * 256 + 1 = 257; and on a
little-endian host the proxied-device count of payload [1, 2, 0] is 513,
not the big-endian 1 * 256 + 2 = 258, because the memcpyd counter is used
without byte-order conversion. -/
theorem C6_big_endian_field_decoding_violated :
    (_HandleGetStatusMessage stOK [1, 1, 0, 0, 0, 0, 0, 0, 0]).2 =
      [{ sub_device := 512, status_type := 0, message_id := 0,
         value1 := 0, value2 := 0 }]
    ∧ statusMessageField 1 1 ≠ 1 * 256 + 1
    ∧ (_HandleGetProxiedDeviceCount true stOK [1, 2, 0]).2.1 ≠ 1 * 256 + 2 := by
  exact ⟨rfl, by decide, by decide⟩

set_option maxRecDepth 4000 in
/-- The UID decode loop on a payload of length 6 * n yields one UID per
consecutive 6-byte slice, in wire order. -/
theorem uidListLoop_eq_slices (n : Nat) :
    ∀ data : List Nat, data.length = 6 * n →
      uidListLoop data = (List.range n).map
        (fun i => UID.fromBytes ((data.drop (6 * i)).take 6)) := by
  induction n with
  | zero =>
      intro data h
      have hnil : data = [] := List.eq_nil_of_length_eq_zero (by omega)
      subst hnil
      rw [uidListLoop]
      simp
  | succ m ih =>
      intro data h
      have hne : data ≠ [] := by
        intro hnil
        subst hnil
        simp at h
      rw [uidListLoop, dif_neg hne]
      have hdrop : (data.drop 6).length = 6 * m := by
        simp only [List.length_drop]
        omega
      rw [ih (data.drop 6) hdrop, List.range_succ_eq_map]
      simp only [List.map_cons, List.map_map]
      congr 1
      simp
      intro a _
      have h6 : 6 + 6 * a = 6 * (a + 1) := by omega
      rw [h6]

/-- C8: for a PROXIED_DEVICES response classified Valid, a payload length
that is an exact multiple of the 6-byte UID size decodes to one UID per
consecutive 6-byte slice in wire order, the list having length
payload_size / 6, and the status is delivered unchanged; any other length
becomes Malformed with a description naming the 6-byte record size and the
actual length. -/
theorem C8_proxied_devices_decode (st : RDMAPIImplResponseStatus)
    (data : List Nat)
    (hv : (ResponseStatus.make st data).m_response_type = .VALID_RESPONSE) :
    (data.length % 6 = 0 →
      (_HandleGetProxiedDevices st data).1 = ResponseStatus.make st data
      ∧ (_HandleGetProxiedDevices st data).2 =
          (List.range (data.length / 6)).map
            (fun i => UID.fromBytes ((data.drop (6 * i)).take 6))
      ∧ (_HandleGetProxiedDevices st data).2.length = data.length / 6)
    ∧ (data.length % 6 ≠ 0 →
      (_HandleGetProxiedDevices st data).1.m_response_type =
        .MALFORMED_RESPONSE
      ∧ (_HandleGetProxiedDevices st data).1.m_error =
          "PDL size not a multiple of " ++ toString 6 ++ " : " ++
            toString data.length) := by
  constructor
  · intro hmod
    have hlen : data.length = 6 * (data.length / 6) := by omega
    have hloop := uidListLoop_eq_slices (data.length / 6) data hlen
    refine ⟨?_, ?_, ?_⟩
    · simp [_HandleGetProxiedDevices, hv, UID_SIZE, hmod]
    · simp only [_HandleGetProxiedDevices, UID_SIZE, hv, hmod, if_pos, if_true]
      simpa using hloop
    · simp only [_HandleGetProxiedDevices, UID_SIZE, hv, hmod, if_pos, if_true]
      simp [hloop]
  · intro hmod
    constructor <;>
      simp [_HandleGetProxiedDevices, hv, UID_SIZE, hmod, MalformedResponse]

/-- C8 witness: a valid 12-byte payload decodes to exactly its two 6-byte
UIDs in wire order; the 6 bytes 1,2,3,4,5,6 give manufacturer 0x0102 and
device 0x03040506. -/
theorem C8_proxied_devices_decode_witness :
    (_HandleGetProxiedDevices stOK
      [1, 2, 3, 4, 5, 6, 0, 0, 0, 0, 0, 9]).2 =
      [{ manufacturer := 258, device := 50595078 },
       { manufacturer := 0, device := 9 }] := by
  have h := (C8_proxied_devices_decode stOK
    [1, 2, 3, 4, 5, 6, 0, 0, 0, 0, 0, 9] (by decide)).1 (by decide)
  rw [h.2.1]
  decide

/-- C9: for a PRODUCT_DETAIL_ID_LIST response classified Valid, a payload
longer than 12 bytes is reclassified Malformed with a description citing
the 12-byte limit (even when its length is a multiple of 2), and on every
input at most 6 product detail ids are delivered to the caller. -/
theorem C9_product_detail_id_limit (littleEndian : Bool)
    (st : RDMAPIImplResponseStatus) (data : List Nat) :
    ((ResponseStatus.make st data).m_response_type = .VALID_RESPONSE →
      data.length > 12 →
      (_HandleGetProductDetailIdList littleEndian st data).1.m_response_type
        = .MALFORMED_RESPONSE
      ∧ (_HandleGetProductDetailIdList littleEndian st data).1.m_error =
          "PDL needs to be <= " ++ toString 12 ++ ", was " ++
            toString data.length)
    ∧ (_HandleGetProductDetailIdList littleEndian st data).2.length ≤ 6 := by
  constructor
  · intro hv hlong
    constructor <;>
      simp [_HandleGetProductDetailIdList, hv, hlong, MalformedResponse]
  · by_cases hv :
      (ResponseStatus.make st data).m_response_type = .VALID_RESPONSE
    · by_cases hlong : data.length > 12
      · simp [_HandleGetProductDetailIdList, hv, hlong]
      · by_cases hodd : data.length % 2 = 0
        · have hne : ¬(data.length % 2 ≠ 0) := by omega
          simp only [_HandleGetProductDetailIdList, hv, hlong, hne,
            if_true, if_false, ite_true, ite_false, if_pos, if_neg,
            not_false_eq_true, u16ListLoop, List.length_map,
            List.length_range]
          simp [hlong, hne]
          omega
        · simp [_HandleGetProductDetailIdList, hv, hlong, hodd]
    · simp [_HandleGetProductDetailIdList, hv]

/-- C9 witness: a valid 14-byte payload (a multiple of 2) is delivered
Malformed with the description citing the 12-byte limit, and its id list is
within the 6-element bound. -/
theorem C9_product_detail_id_limit_witness :
    ((_HandleGetProductDetailIdList true stOK
        (List.replicate 14 0)).1.m_response_type = .MALFORMED_RESPONSE
      ∧ (_HandleGetProductDetailIdList true stOK
          (List.replicate 14 0)).1.m_error =
        "PDL needs to be <= " ++ toString 12 ++ ", was " ++
          toString (List.replicate 14 0).length)
    ∧ (_HandleGetProductDetailIdList true stOK
        (List.replicate 14 0)).2.length ≤ 6 :=
  ⟨(C9_product_detail_id_limit true stOK (List.replicate 14 0)).1
      (by decide) (by decide),
    (C9_product_detail_id_limit true stOK (List.replicate 14 0)).2⟩

end OlaRdm
